import Mathlib

/-!
# Verification of the trader signal-and-risk pipeline

Shallow embedding of the core of the `trader` repository: the RSI indicator
kernel and signal classifier (`src/strategy/RSIStrategy.cpp`), the SMA
triple-MA detector (`SMAStrategy.cpp`), the per-strategy signal-history
throttle, the Risk Manager (`risk/RiskManager.cpp`), the Strategy Engine
dispatcher (`StrategyEngine.cpp`) and the Backtester loaders
(`backtester/BackTester.cpp`).

C++ `double` values are embedded as exact rationals (`ℚ`); wall-clock
time points are embedded as explicit natural-number millisecond
timestamps threaded through the functions that read the clock; C++
exceptions are embedded as an error component returned next to the
(unchanged) state.
-/

namespace Trader

/-! ## Indicator kernel: RSI (`CRSIStrategy::CalculateRSI`) -/

/-- `CRSIStrategy::CalculateWildersSmoothing`: arithmetic mean of the first
`min period values.length` elements; `0` on an empty input. -/
def calculateWildersSmoothing (values : List ℚ) (period : ℕ) : ℚ :=
  if values.isEmpty then 0
  else
    let count := min period values.length
    ((values.take count).sum) / count

/-- The `period` consecutive differences `prices[i] - prices[i-1]` for
`i = prices.length - period .. prices.length - 1`, i.e. the successive
changes over the last `period + 1` elements (as computed by the loop in
`CRSIStrategy::CalculateRSI`). -/
def lastChanges (prices : List ℚ) (period : ℕ) : List ℚ :=
  let window := prices.drop (prices.length - (period + 1))
  window.tail.zipWith (fun a b => a - b) window

/-- `CRSIStrategy::CalculateRSI`: neutral `50` when fewer than `period + 1`
prices are available; otherwise average gain / average loss over the last
`period` changes via `calculateWildersSmoothing`, `100` when the average
loss is zero, else `100 - 100 / (1 + avgGain / avgLoss)`. -/
def calculateRSI (prices : List ℚ) (period : ℕ) : ℚ :=
  if prices.length < period + 1 then 50
  else
    let changes := lastChanges prices period
    let gains := changes.map (fun c => if c > 0 then c else 0)
    let losses := changes.map (fun c => if c < 0 then -c else 0)
    let avgGain := calculateWildersSmoothing gains period
    let avgLoss := calculateWildersSmoothing losses period
    if avgLoss = 0 then 100
    else 100 - (100 / (1 + avgGain / avgLoss))

/-- The RSI kernel as the specification states it: on fewer than `p + 1`
closes return the neutral sentinel `50`; otherwise take the `p` consecutive
changes over the last `p + 1` closes, gains `max (Δ) 0` and losses
`max (-Δ) 0`, form `avg_gain` and `avg_loss` as the simple average (sum
divided by `p`) of those `p` values, return `100` when `avg_loss = 0`, and
`100 - 100 / (1 + avg_gain / avg_loss)` otherwise. -/
def rsiSpec (x : List ℚ) (p : ℕ) : ℚ :=
  if x.length < p + 1 then 50
  else
    let changes := lastChanges x p
    let avgGain := (changes.map (fun d => max d 0)).sum / p
    let avgLoss := (changes.map (fun d => max (-d) 0)).sum / p
    if avgLoss = 0 then 100
    else 100 - (100 / (1 + avgGain / avgLoss))

theorem lastChanges_length (prices : List ℚ) (period : ℕ)
    (h : period + 1 ≤ prices.length) :
    (lastChanges prices period).length = period := by
  unfold lastChanges
  simp only [List.length_zipWith, List.length_tail, List.length_drop]
  omega

theorem calculateWildersSmoothing_eq_sum_div (l : List ℚ) (p : ℕ)
    (hl : l.length = p) (hp : 1 ≤ p) :
    calculateWildersSmoothing l p = l.sum / p := by
  unfold calculateWildersSmoothing
  have hne : l.isEmpty = false := by
    cases l with
    | nil => simp at hl; omega
    | cons a t => rfl
  rw [hne]
  simp only [Bool.false_eq_true, if_false, hl, min_self,
    List.take_of_length_le (le_of_eq hl)]

theorem ite_pos_eq_max (c : ℚ) : (if c > 0 then c else 0) = max c 0 := by
  rcases le_or_lt c 0 with h | h
  · simp [not_lt.mpr h, max_eq_right h]
  · simp [h, max_eq_left h.le]

theorem ite_neg_eq_max (c : ℚ) : (if c < 0 then -c else 0) = max (-c) 0 := by
  rcases lt_or_le c 0 with h | h
  · simp [h, max_eq_left (by linarith : (0:ℚ) ≤ -c)]
  · simp [not_lt.mpr h, max_eq_right (by linarith : -c ≤ (0:ℚ))]

/-- **C3**: for every price sequence `x` and period `p ≥ 1`, the RSI kernel
`CRSIStrategy::CalculateRSI` returns the neutral sentinel `50` when `x` has
fewer than `p + 1` elements, and otherwise computes the `p` consecutive
changes over the last `p + 1` closes, takes gains `max Δ 0` and losses
`max (-Δ) 0`, forms the average gain and loss as the simple average of
those `p` values, returns `100` when the average loss is `0`, and returns
`100 - 100 / (1 + avg_gain / avg_loss)` otherwise — i.e. it coincides with
the specification-side definition `rsiSpec`. -/
theorem calculateRSI_eq_rsiSpec (x : List ℚ) (p : ℕ) (hp : 1 ≤ p) :
    calculateRSI x p = rsiSpec x p := by
  unfold calculateRSI rsiSpec
  by_cases h : x.length < p + 1
  · simp [h]
  · simp only [h, if_false]
    have hlen : (lastChanges x p).length = p := lastChanges_length x p (by omega)
    have hg : (lastChanges x p).map (fun c => if c > 0 then c else 0)
        = (lastChanges x p).map (fun d => max d 0) :=
      List.map_congr_left (fun c _ => ite_pos_eq_max c)
    have hl : (lastChanges x p).map (fun c => if c < 0 then -c else 0)
        = (lastChanges x p).map (fun d => max (-d) 0) :=
      List.map_congr_left (fun c _ => ite_neg_eq_max c)
    have hglen : ((lastChanges x p).map (fun d => max d 0)).length = p := by
      rw [List.length_map, hlen]
    have hllen : ((lastChanges x p).map (fun d => max (-d) 0)).length = p := by
      rw [List.length_map, hlen]
    rw [hg, hl, calculateWildersSmoothing_eq_sum_div _ p hglen hp,
      calculateWildersSmoothing_eq_sum_div _ p hllen hp]

/-- Witness for `calculateRSI_eq_rsiSpec` at `x = [1, 3, 2]`, `p = 2`. -/
theorem calculateRSI_eq_rsiSpec_witness :
    1 ≤ 2 ∧ calculateRSI [1, 3, 2] 2 = rsiSpec [1, 3, 2] 2 :=
  ⟨by decide, calculateRSI_eq_rsiSpec [1, 3, 2] 2 (by decide)⟩

/-! ## RSI signal classifier (`CRSIStrategy`) -/

/-- RSI zone classification (`ERSIZone` in the RSI strategy). -/
inductive ERSIZone where
  | EXTREME_OVERSOLD
  | OVERSOLD
  | NEUTRAL_LOW
  | NEUTRAL_HIGH
  | OVERBOUGHT
  | EXTREME_OVERBOUGHT
deriving DecidableEq, Repr

/-- RSI signal kinds (`ERSISignalType` in the RSI strategy). -/
inductive ERSISignalType where
  | NONE
  | BUY_OVERSOLD
  | SELL_OVERBOUGHT
  | BUY_OVERSOLD_EXIT
  | SELL_OVERBOUGHT_EXIT
  | EXTREME_REVERSAL_BUY
  | EXTREME_REVERSAL_SELL
  | DIVERGENCE_BULLISH
  | DIVERGENCE_BEARISH
  | MOMENTUM_BULLISH
  | MOMENTUM_BEARISH
deriving DecidableEq, Repr

/-- Snapshot of RSI-derived values (`SRSIValues`). -/
structure SRSIValues where
  rsi : ℚ := 0
  previousRSI : ℚ := 0
  rsiChange : ℚ := 0
  averageGain : ℚ := 0
  averageLoss : ℚ := 0
  timestamp : ℕ := 0
  periodCount : ℤ := 0
  isValid : Bool := false
deriving DecidableEq, Repr

/-- RSI strategy configuration thresholds (`SRSIParameters` members read by
the classifier, plus the `mMinRSIChange` member). -/
structure RSIParams where
  rsiPeriod : ℕ := 14
  oversoldThreshold : ℚ := 30
  overboughtThreshold : ℚ := 70
  extremeOversold : ℚ := 20
  extremeOverbought : ℚ := 80
  minRSIChange : ℚ := 5
deriving DecidableEq, Repr

/-- `CRSIStrategy::DetermineRSIZone`. -/
def determineRSIZone (p : RSIParams) (rsi : ℚ) : ERSIZone :=
  if rsi ≤ p.extremeOversold then .EXTREME_OVERSOLD
  else if rsi ≤ p.oversoldThreshold then .OVERSOLD
  else if rsi < 50 then .NEUTRAL_LOW
  else if rsi < p.overboughtThreshold then .NEUTRAL_HIGH
  else if rsi < p.extremeOverbought then .OVERBOUGHT
  else .EXTREME_OVERBOUGHT

/-- `CRSIStrategy::IsValidRSIValues`: valid flag set and RSI in `[0, 100]`. -/
def isValidRSIValues (v : SRSIValues) : Bool :=
  v.isValid && decide (0 ≤ v.rsi) && decide (v.rsi ≤ 100)

/-- `CRSIStrategy::DetectMomentumSignal`. -/
def detectMomentumSignal (p : RSIParams) (current previous : SRSIValues) :
    ERSISignalType :=
  if current.rsiChange > p.minRSIChange ∧ current.rsiChange > previous.rsiChange ∧
      current.rsi > 50 then
    .MOMENTUM_BULLISH
  else if current.rsiChange < -p.minRSIChange ∧ current.rsiChange < previous.rsiChange ∧
      current.rsi < 50 then
    .MOMENTUM_BEARISH
  else
    .NONE

/-- `CRSIStrategy::DetectZoneTransition`.  The call to the member
`IsRSIReversing()` (which reads the stored RSI history) is threaded in as
the boolean `reversing`. -/
def detectZoneTransition (currentZone previousZone : ERSIZone)
    (_values : SRSIValues) (reversing : Bool) : ERSISignalType :=
  if currentZone = .OVERSOLD ∧ previousZone ≠ .OVERSOLD ∧
      previousZone ≠ .EXTREME_OVERSOLD then
    .BUY_OVERSOLD
  else if currentZone = .OVERBOUGHT ∧ previousZone ≠ .OVERBOUGHT ∧
      previousZone ≠ .EXTREME_OVERBOUGHT then
    .SELL_OVERBOUGHT
  else if (previousZone = .OVERSOLD ∨ previousZone = .EXTREME_OVERSOLD) ∧
      (currentZone = .NEUTRAL_LOW ∨ currentZone = .NEUTRAL_HIGH) then
    .BUY_OVERSOLD_EXIT
  else if (previousZone = .OVERBOUGHT ∨ previousZone = .EXTREME_OVERBOUGHT) ∧
      (currentZone = .NEUTRAL_HIGH ∨ currentZone = .NEUTRAL_LOW) then
    .SELL_OVERBOUGHT_EXIT
  else if currentZone = .EXTREME_OVERSOLD ∧ reversing then
    .EXTREME_REVERSAL_BUY
  else if currentZone = .EXTREME_OVERBOUGHT ∧ reversing then
    .EXTREME_REVERSAL_SELL
  else
    .NONE

/-- `CRSIStrategy::AnalyzeRSISignal`: validity guard, then momentum
detection, then zone-transition detection on the zones recomputed from the
current and previous RSI values. -/
def analyzeRSISignal (p : RSIParams) (reversing : Bool)
    (current previous : SRSIValues) : ERSISignalType :=
  if ¬(isValidRSIValues current ∧ isValidRSIValues previous) then .NONE
  else
    let momentumSignal := detectMomentumSignal p current previous
    if momentumSignal ≠ .NONE then momentumSignal
    else
      detectZoneTransition (determineRSIZone p current.rsi)
        (determineRSIZone p previous.rsi) current reversing

/-- Concrete RSI snapshot for the C4 analysis: RSI fell from 35 to 28. -/
def rsiPrev35 : SRSIValues :=
  { rsi := 35, previousRSI := 35, rsiChange := 0, averageGain := 1,
    averageLoss := 1, timestamp := 0, periodCount := 20, isValid := true }

/-- Concrete RSI snapshot for the C4 analysis: current value 28, change −7. -/
def rsiCur28 : SRSIValues :=
  { rsi := 28, previousRSI := 35, rsiChange := -7, averageGain := 1,
    averageLoss := 2, timestamp := 1, periodCount := 21, isValid := true }

/-- **C4** (counterexample): with the default thresholds, an update where the
RSI falls from 35 to 28 is simultaneously a zone-entry transition into
OVERSOLD (previous zone NEUTRAL_LOW, current zone OVERSOLD) and a momentum
condition (change −7 < −5, decreasing, RSI < 50) — and the classifier
returns MOMENTUM_BEARISH, not BUY_OVERSOLD as the claim states: the
momentum rule is applied before the zone-entry rule. -/
theorem analyzeRSISignal_zone_entry_loses_to_momentum :
    determineRSIZone {} rsiCur28.rsi = ERSIZone.OVERSOLD ∧
    determineRSIZone {} rsiPrev35.rsi = ERSIZone.NEUTRAL_LOW ∧
    detectMomentumSignal {} rsiCur28 rsiPrev35 ≠ ERSISignalType.NONE ∧
    analyzeRSISignal {} false rsiCur28 rsiPrev35 = ERSISignalType.MOMENTUM_BEARISH ∧
    analyzeRSISignal {} false rsiCur28 rsiPrev35 ≠ ERSISignalType.BUY_OVERSOLD := by
  decide

/-- **C4** (amended): in every RSI update on valid values, the momentum rule
is applied first: whenever the momentum condition holds, its signal
(MOMENTUM_BULLISH or MOMENTUM_BEARISH) is the emitted classification, and
the zone rules — zone-entry, zone-exit, extreme reversal, in that order —
are only consulted when no momentum condition holds; in particular when a
zone-entry transition into OVERSOLD and a momentum condition both hold the
result is the momentum signal, not BUY_OVERSOLD. -/
theorem analyzeRSISignal_momentum_first (p : RSIParams) (reversing : Bool)
    (current previous : SRSIValues)
    (hc : isValidRSIValues current = true)
    (hp : isValidRSIValues previous = true)
    (hm : detectMomentumSignal p current previous ≠ ERSISignalType.NONE) :
    analyzeRSISignal p reversing current previous
      = detectMomentumSignal p current previous := by
  unfold analyzeRSISignal
  simp [hc, hp, hm]

/-- Witness for `analyzeRSISignal_momentum_first` at the concrete snapshots
`rsiCur28` / `rsiPrev35`. -/
theorem analyzeRSISignal_momentum_first_witness :
    (isValidRSIValues rsiCur28 = true ∧ isValidRSIValues rsiPrev35 = true ∧
      detectMomentumSignal {} rsiCur28 rsiPrev35 ≠ ERSISignalType.NONE) ∧
    analyzeRSISignal {} false rsiCur28 rsiPrev35
      = detectMomentumSignal {} rsiCur28 rsiPrev35 :=
  ⟨⟨by decide, by decide, by decide⟩,
    analyzeRSISignal_momentum_first {} false rsiCur28 rsiPrev35
      (by decide) (by decide) (by decide)⟩

/-! ## SMA strategy: triple-MA alignment detector (`CSMAStrategy`) -/

/-- `ESMAConfiguration` in `SMAStrategy.h`. -/
inductive ESMAConfiguration where
  | DUAL_MA
  | TRIPLE_MA
  | SINGLE_MA_PRICE
deriving DecidableEq, Repr

/-- `ESMASignalType` in `SMAStrategy.h`. -/
inductive ESMASignalType where
  | NONE
  | GOLDEN_CROSS
  | DEATH_CROSS
  | PRICE_ABOVE_MA
  | PRICE_BELOW_MA
  | TREND_ACCELERATION
  | TREND_DECELERATION
  | PULLBACK_BUY
  | PULLBACK_SELL
  | TRIPLE_ALIGNMENT_BULL
  | TRIPLE_ALIGNMENT_BEAR
  | CONVERGENCE
  | DIVERGENCE
deriving DecidableEq, Repr

/-- The fields of `SSMAValues` read by the triple-MA detector. -/
structure SSMAValues where
  fastSMA : ℚ := 0
  slowSMA : ℚ := 0
  longSMA : ℚ := 0
  isValid : Bool := false
deriving DecidableEq, Repr

/-- The SMA-strategy members read by `IsTripleAlignment` and
`DetectTripleMASignals`: the configured mode and the current SMA values. -/
structure SMACtx where
  configuration : ESMAConfiguration
  currentSMAValues : SSMAValues
deriving DecidableEq, Repr

/-- `CSMAStrategy::IsTripleAlignment`: in triple-MA mode, fast > slow > long
for the bullish direction and fast < slow < long for the bearish one,
always on the stored current SMA values. -/
def isTripleAlignment (ctx : SMACtx) (bullish : Bool) : Bool :=
  if ctx.configuration ≠ ESMAConfiguration.TRIPLE_MA then false
  else
    let v := ctx.currentSMAValues
    if bullish then
      decide (v.fastSMA > v.slowSMA) && decide (v.slowSMA > v.longSMA)
    else
      decide (v.fastSMA < v.slowSMA) && decide (v.slowSMA < v.longSMA)

/-- `CSMAStrategy::DetectTripleMASignals`, exactly as written in the source:
each branch guard conjoins `IsTripleAlignment b` with its own negation. -/
def detectTripleMASignals (ctx : SMACtx) (_current _previous : SSMAValues) :
    ESMASignalType :=
  if ctx.configuration ≠ ESMAConfiguration.TRIPLE_MA then .NONE
  else if isTripleAlignment ctx true ∧ ¬(isTripleAlignment ctx true) then
    .TRIPLE_ALIGNMENT_BULL
  else if isTripleAlignment ctx false ∧ ¬(isTripleAlignment ctx false) then
    .TRIPLE_ALIGNMENT_BEAR
  else .NONE

/-- Triple-MA state in which the bullish alignment holds (fast 3 > slow 2 >
long 1): on a transition edge into this state the claim expects
TRIPLE_ALIGNMENT_BULL to be emitted. -/
def smaAlignedBull : SMACtx :=
  { configuration := .TRIPLE_MA,
    currentSMAValues := { fastSMA := 3, slowSMA := 2, longSMA := 1, isValid := true } }

/-- **C6**: `DetectTripleMASignals` can never return TRIPLE_ALIGNMENT_BULL
or TRIPLE_ALIGNMENT_BEAR — its guards conjoin a condition with its own
negation — so contrary to the claim (and to the spec's stated intent) no
triple-alignment signal is ever emitted, not even in a state where the
bullish alignment holds, such as `smaAlignedBull`. -/
theorem detectTripleMASignals_never_fires :
    (∀ (ctx : SMACtx) (c p : SSMAValues),
      detectTripleMASignals ctx c p = ESMASignalType.NONE) ∧
    isTripleAlignment smaAlignedBull true = true ∧
    detectTripleMASignals smaAlignedBull smaAlignedBull.currentSMAValues
      smaAlignedBull.currentSMAValues = ESMASignalType.NONE := by
  refine ⟨fun ctx c p => ?_, by decide, by decide⟩
  unfold detectTripleMASignals
  by_cases h : ctx.configuration ≠ ESMAConfiguration.TRIPLE_MA <;> simp [h]

/-! ## RSI strategy rolling buffers (`CRSIStrategy::Update` data management)

`UpdateClosePrices`, `UpdateRSIHistory` and `AddSignalToHistory` each append
and then pop from the front while the container exceeds its cap.  The
`Update` control flow is modelled as a step relation: an update either
returns early (uninitialized strategy or empty kline batch — no buffer
changes), or appends the batch's closes to the price buffer and then,
depending on the data-sufficiency, validity and signal checks, appends to
the RSI history and possibly to the signal history. -/

/-- `while (l.size() > maxSize) l.pop_front()`: drop the oldest elements
until at most `maxSize` remain. -/
def trimFront (maxSize : ℕ) (l : List α) : List α :=
  l.drop (l.length - maxSize)

/-- Append one element, then trim to `maxSize` from the front. -/
def pushTrim (maxSize : ℕ) (l : List α) (x : α) : List α :=
  trimFront maxSize (l ++ [x])

/-- `CRSIStrategy::UpdateClosePrices`: append every close of the batch, then
trim the buffer to `max (period*3) 200`. -/
def updateClosePrices (period : ℕ) (closes ks : List ℚ) : List ℚ :=
  trimFront (max (period * 3) 200) (closes ++ ks)

/-- An entry of the RSI signal history (`SRSISignalHistory`). -/
structure SRSISignalHistory where
  type : ERSISignalType := .NONE
  values : SRSIValues := {}
  zone : ERSIZone := .NEUTRAL_LOW
  price : ℚ := 0
  timestamp : ℕ := 0
  description : String := ""
  strength : ℚ := 0
deriving DecidableEq, Repr

/-- The three rolling containers of the RSI strategy. -/
structure RSIBuffers where
  closePrices : List ℚ
  rsiHistory : List SRSIValues
  signalHistory : List SRSISignalHistory
deriving DecidableEq, Repr

/-- The freshly initialized RSI strategy: all buffers empty. -/
def initRSIBuffers : RSIBuffers := ⟨[], [], []⟩

/-- Effect of one `CRSIStrategy::Update` call on the rolling buffers:
either an early return leaves them unchanged, or the close buffer absorbs
the batch via `updateClosePrices` and then (data permitting) the RSI
history gains one trimmed entry via `UpdateRSIHistory`, and (when a signal
is generated) the signal history gains one trimmed entry via
`AddSignalToHistory`. -/
def RSIUpdateStep (period : ℕ) (s s' : RSIBuffers) : Prop :=
  s' = s ∨
  ∃ ks : List ℚ,
    s'.closePrices = updateClosePrices period s.closePrices ks ∧
    ((s'.rsiHistory = s.rsiHistory ∧ s'.signalHistory = s.signalHistory) ∨
      ∃ v : SRSIValues,
        s'.rsiHistory = pushTrim 500 s.rsiHistory v ∧
        (s'.signalHistory = s.signalHistory ∨
          ∃ sg : SRSISignalHistory,
            s'.signalHistory = pushTrim 100 s.signalHistory sg))

theorem trimFront_length_le (maxSize : ℕ) (l : List α) :
    (trimFront maxSize l).length ≤ maxSize := by
  simp only [trimFront, List.length_drop]
  omega

theorem pushTrim_length_le (maxSize : ℕ) (l : List α) (x : α) :
    (pushTrim maxSize l x).length ≤ maxSize :=
  trimFront_length_le maxSize (l ++ [x])

/-- **C7**: in every RSI-strategy state reachable from the initial state by
any sequence of `Update` calls, the close-price buffer holds at most
`max (period*3) 200` entries, the RSI indicator-value history at most 500,
and the emitted-signal history at most 100. -/
theorem rsi_buffers_bounded (period : ℕ) (s : RSIBuffers)
    (h : Relation.ReflTransGen (RSIUpdateStep period) initRSIBuffers s) :
    s.closePrices.length ≤ max (period * 3) 200 ∧
    s.rsiHistory.length ≤ 500 ∧ s.signalHistory.length ≤ 100 := by
  induction h with
  | refl => simp [initRSIBuffers]
  | tail _ step ih =>
    rename_i t u _
    rcases step with heq | ⟨ks, hclose, hrest⟩
    · rw [heq]; exact ih
    · refine ⟨hclose ▸ trimFront_length_le _ _, ?_, ?_⟩
      · rcases hrest with ⟨hr, _⟩ | ⟨v, hr, _⟩
        · rw [hr]; exact ih.2.1
        · rw [hr]; exact pushTrim_length_le _ _ _
      · rcases hrest with ⟨_, hs⟩ | ⟨v, _, hs | ⟨sg, hs⟩⟩
        · rw [hs]; exact ih.2.2
        · rw [hs]; exact ih.2.2
        · rw [hs]; exact pushTrim_length_le _ _ _

/-- Witness for `rsi_buffers_bounded`: the state after a single update that
absorbed the one-candle batch `[5]` is reachable for period 14 and
satisfies all three bounds. -/
theorem rsi_buffers_bounded_witness :
    Relation.ReflTransGen (RSIUpdateStep 14) initRSIBuffers ⟨[5], [], []⟩ ∧
    ([(5:ℚ)].length ≤ max (14 * 3) 200 ∧
      ([] : List SRSIValues).length ≤ 500 ∧
      ([] : List SRSISignalHistory).length ≤ 100) :=
  have hstep : RSIUpdateStep 14 initRSIBuffers ⟨[5], [], []⟩ :=
    Or.inr ⟨[5], by decide, Or.inl ⟨rfl, rfl⟩⟩
  ⟨Relation.ReflTransGen.single hstep,
    rsi_buffers_bounded 14 ⟨[5], [], []⟩ (Relation.ReflTransGen.single hstep)⟩

/-! ## Signal-history throttling (`ShouldGenerateSignal` of the three
strategies)

`CRSIStrategy::ShouldGenerateSignal`, `CSMAStrategy::ShouldGenerateSignal`
and `CMACDStrategy::ShouldGenerateSignal` are textually identical up to the
cooldown constant (10, 15 and 5 minutes): each looks at `mSignalHistory.back()`
only, and refuses the candidate kind exactly when the last recorded signal
has the same kind and lies within the cooldown.  The emission subsystem is
modelled generically over the per-strategy signal-kind type. -/

/-- `EMACDSignalType` in the MACD strategy. -/
inductive EMACDSignalType where
  | NONE
  | BULLISH_CROSSOVER
  | BEARISH_CROSSOVER
  | ZERO_LINE_CROSS_UP
  | ZERO_LINE_CROSS_DOWN
  | HISTOGRAM_TURN_POSITIVE
  | HISTOGRAM_TURN_NEGATIVE
  | HISTOGRAM_ACCELERATING_UP
  | HISTOGRAM_ACCELERATING_DOWN
  | MOMENTUM_ACCELERATION_UP
  | MOMENTUM_ACCELERATION_DOWN
  | TREND_CONFIRMATION_BULLISH
  | TREND_CONFIRMATION_BEARISH
  | DIVERGENCE_BULLISH
  | DIVERGENCE_BEARISH
deriving DecidableEq, Repr

/-- One recorded signal-history entry, reduced to the fields the throttle
reads: its kind and its wall-clock timestamp in milliseconds. -/
structure SigEvent (α : Type) where
  kind : α
  timestamp : ℕ
deriving DecidableEq, Repr

/-- `ShouldGenerateSignal(signalType)` with cooldown `cooldownMin` minutes:
false exactly when the history is nonempty, its last entry has the same
kind, and `duration_cast<minutes>(now - last.mTimestamp).count()` is below
the cooldown. -/
def shouldGenerateSignalG [DecidableEq α] (cooldownMin : ℕ)
    (hist : List (SigEvent α)) (k : α) (now : ℕ) : Bool :=
  match hist.getLast? with
  | none => true
  | some last =>
    if last.kind = k ∧ (now - last.timestamp) / 60000 < cooldownMin then false
    else true

/-- One emission attempt: when the throttle admits the kind, the entry is
appended to the history (which `AddSignalToHistory` then trims to 100). -/
def emitStep [DecidableEq α] (cooldownMin : ℕ)
    (hist : List (SigEvent α)) (k : α) (now : ℕ) : List (SigEvent α) :=
  if shouldGenerateSignalG cooldownMin hist k now then
    pushTrim 100 hist ⟨k, now⟩
  else hist

/-- Run a sequence of emission attempts through the throttle. -/
def runEmits [DecidableEq α] (cooldownMin : ℕ)
    (hist : List (SigEvent α)) : List (α × ℕ) → List (SigEvent α)
  | [] => hist
  | (k, t) :: rest => runEmits cooldownMin (emitStep cooldownMin hist k t) rest

/-- The RSI strategy's throttle: 10-minute cooldown. -/
def runRSIEmits : List (ERSISignalType × ℕ) → List (SigEvent ERSISignalType) :=
  runEmits 10 []

/-- The SMA strategy's throttle: 15-minute cooldown. -/
def runSMAEmits : List (ESMASignalType × ℕ) → List (SigEvent ESMASignalType) :=
  runEmits 15 []

/-- The MACD strategy's throttle: 5-minute cooldown. -/
def runMACDEmits : List (EMACDSignalType × ℕ) → List (SigEvent EMACDSignalType) :=
  runEmits 5 []

/-- Every pair of same-kind entries of a history (not only adjacent ones) is
separated by at least `cooldownMs` milliseconds — the property claimed for
the strategies' signal histories. -/
def sameKindGapOK (cooldownMs : ℕ) (hist : List (SigEvent α)) : Prop :=
  List.Pairwise
    (fun a b => a.kind = b.kind → cooldownMs ≤ b.timestamp - a.timestamp) hist

/-- Adjacent entries of a history with the same kind are separated by at
least `cooldownMs` milliseconds. -/
def adjSameKindGapOK (cooldownMs : ℕ) (hist : List (SigEvent α)) : Prop :=
  List.Chain'
    (fun a b => a.kind = b.kind → cooldownMs ≤ b.timestamp - a.timestamp) hist

instance (cooldownMs : ℕ) [DecidableEq α] (hist : List (SigEvent α)) :
    Decidable (sameKindGapOK cooldownMs hist) := by
  unfold sameKindGapOK
  infer_instance

/-- **C5** (counterexample): feeding the RSI throttle BUY_OVERSOLD at t=0,
SELL_OVERBOUGHT at t=60000 (1 min) and BUY_OVERSOLD again at t=120000
(2 min) records all three entries: the two BUY_OVERSOLD emissions are only
2 minutes apart, far below the 10-minute cooldown, because the throttle
compares the candidate only against the most recent entry regardless of
kind. -/
theorem rsi_throttle_same_kind_within_cooldown :
    runRSIEmits
        [(ERSISignalType.BUY_OVERSOLD, 0),
          (ERSISignalType.SELL_OVERBOUGHT, 60000),
          (ERSISignalType.BUY_OVERSOLD, 120000)]
      = [⟨ERSISignalType.BUY_OVERSOLD, 0⟩,
          ⟨ERSISignalType.SELL_OVERBOUGHT, 60000⟩,
          ⟨ERSISignalType.BUY_OVERSOLD, 120000⟩] ∧
    ¬ sameKindGapOK 600000
        (runRSIEmits
          [(ERSISignalType.BUY_OVERSOLD, 0),
            (ERSISignalType.SELL_OVERBOUGHT, 60000),
            (ERSISignalType.BUY_OVERSOLD, 120000)]) := by
  decide

theorem emitStep_adj [DecidableEq α] (c : ℕ) (hist : List (SigEvent α))
    (k : α) (now : ℕ) (h : adjSameKindGapOK (c * 60000) hist) :
    adjSameKindGapOK (c * 60000) (emitStep c hist k now) := by
  unfold emitStep
  by_cases hg : shouldGenerateSignalG c hist k now = true
  · simp only [hg, if_true]
    have happ : adjSameKindGapOK (c * 60000) (hist ++ [⟨k, now⟩]) := by
      unfold adjSameKindGapOK at h ⊢
      rw [List.chain'_append]
      refine ⟨h, List.chain'_singleton _, ?_⟩
      intro x hx y hy hkind
      simp only [List.head?_cons, Option.mem_def, Option.some.injEq] at hy
      subst hy
      unfold shouldGenerateSignalG at hg
      rw [Option.mem_def] at hx
      rw [hx] at hg
      have hkind' : x.kind = k := hkind
      show c * 60000 ≤ now - x.timestamp
      by_contra hlt
      push_neg at hlt
      have hdiv : (now - x.timestamp) / 60000 < c := by omega
      simp only [if_pos (And.intro hkind' hdiv)] at hg
      exact Bool.false_ne_true hg
    exact List.Chain'.suffix happ (by
      unfold pushTrim trimFront
      exact List.drop_suffix _ _)
  · simp only [hg, if_false]
    exact h

theorem runEmits_adj [DecidableEq α] (c : ℕ) (events : List (α × ℕ)) :
    ∀ hist : List (SigEvent α), adjSameKindGapOK (c * 60000) hist →
      adjSameKindGapOK (c * 60000) (runEmits c hist events) := by
  induction events with
  | nil => intro hist h; exact h
  | cons e rest ih =>
    intro hist h
    exact ih _ (emitStep_adj c hist e.1 e.2 h)

/-- **C5** (amended): the throttle only compares a candidate against the
most recent history entry, so what holds is: in each strategy's signal
history, *adjacent* entries of the same kind are separated by at least the
strategy-specific cooldown (RSI 10 min, SMA 15 min, MACD 5 min); a
same-kind pair with an emission of another kind in between may be closer. -/
theorem signal_throttle_adjacent_cooldown
    (rsiEvents : List (ERSISignalType × ℕ))
    (smaEvents : List (ESMASignalType × ℕ))
    (macdEvents : List (EMACDSignalType × ℕ)) :
    adjSameKindGapOK (10 * 60000) (runRSIEmits rsiEvents) ∧
    adjSameKindGapOK (15 * 60000) (runSMAEmits smaEvents) ∧
    adjSameKindGapOK (5 * 60000) (runMACDEmits macdEvents) :=
  ⟨runEmits_adj 10 rsiEvents [] List.chain'_nil,
    runEmits_adj 15 smaEvents [] List.chain'_nil,
    runEmits_adj 5 macdEvents [] List.chain'_nil⟩

/-! ## Risk Manager (`Risk::CRiskManager`)

Wall-clock reads (`system_clock::now()`) are threaded in as explicit
millisecond timestamps.  C++ exceptions are embedded as an `Option Unit`
error component returned next to the state: `some ()` means the call threw
(and, as in the source, threw before any mutation). -/

/-- `Strategy::EOrderSide`. -/
inductive EOrderSide where
  | BUY
  | SELL
deriving DecidableEq, Repr

/-- `Strategy::SPosition` (the `mMetadata` string map is omitted; no Risk
Manager code path reads it). -/
structure SPosition where
  symbol : String := ""
  side : EOrderSide := .BUY
  entryPrice : ℚ := 0
  quantity : ℚ := 0
  entryTime : ℕ := 0
  stopLoss : ℚ := 0
  takeProfit : ℚ := 0
  id : String := ""
  strategyName : String := ""
  currentPrice : ℚ := 0
  unrealizedPnL : ℚ := 0
  commission : ℚ := 0
deriving DecidableEq, Repr

/-- `CRiskManager::ERiskAlertType`. -/
inductive ERiskAlertType where
  | DAILY_LOSS_LIMIT
  | TOTAL_EXPOSURE_LIMIT
  | SYMBOL_EXPOSURE_LIMIT
  | MAX_POSITIONS_LIMIT
  | VOLATILITY_ALERT
deriving DecidableEq, Repr

/-- `CRiskManager::SRiskAlert`. -/
structure SRiskAlert where
  type : ERiskAlertType
  symbol : String
  message : String
  timestamp : ℕ
  currentValue : ℚ
  limitValue : ℚ
deriving DecidableEq, Repr

/-- Lookup in an association list embedding a `std::map`. -/
def alookup [DecidableEq κ] : List (κ × β) → κ → Option β
  | [], _ => none
  | (k, v) :: t, key => if k = key then some v else alookup t key

/-- `map[key] = v`: overwrite the entry or insert it. -/
def aset [DecidableEq κ] : List (κ × β) → κ → β → List (κ × β)
  | [], key, v => [(key, v)]
  | (k, w) :: t, key, v =>
    if k = key then (k, v) :: t else (k, w) :: aset t key v

/-- `map[key] += d` on a `std::map<…, double>`: value-initialize to `0` on
a missing key, then add `d`. -/
def aadd [DecidableEq κ] : List (κ × ℚ) → κ → ℚ → List (κ × ℚ)
  | [], key, d => [(key, d)]
  | (k, v) :: t, key, d =>
    if k = key then (k, v + d) :: t else (k, v) :: aadd t key d

/-- `map.erase(key)`: remove the entry (keys are unique). -/
def aerase [DecidableEq κ] : List (κ × β) → κ → List (κ × β)
  | [], _ => []
  | (k, v) :: t, key => if k = key then t else (k, v) :: aerase t key

/-- The state of `Risk::CRiskManager`: risk parameters with their
constructor defaults, the position/exposure/last-trade maps, the running
aggregates, and the active-alerts list. -/
structure RiskState where
  maxCapitalPerTrade : ℚ := 5
  maxTotalExposure : ℚ := 50
  maxSymbolExposure : ℚ := 20
  maxOpenPositions : ℕ := 5
  maxDailyLoss : ℚ := 10
  defaultStopLoss : ℚ := 2
  defaultTakeProfit : ℚ := 5
  minTimeBetweenTrades : ℕ := 60
  enableVolatilityCheck : Bool := true
  maxVolatility : ℚ := 5
  openPositions : List (String × SPosition) := []
  symbolExposure : List (String × ℚ) := []
  lastTradeTime : List (String × ℕ) := []
  totalExposure : ℚ := 0
  todayPnL : ℚ := 0
  startOfDay : ℕ := 0
  activeAlerts : List SRiskAlert := []
deriving DecidableEq, Repr

/-- The `CRiskManager` constructor: defaults, empty maps, `mStartOfDay :=
now` (its subsequent same-statement day-rollover test compares `now`'s day
with itself and never fires). -/
def initRiskManager (now : ℕ) : RiskState := { startOfDay := now }

/-- The account balance hardcoded to `10000.0` in `CheckMaxDailyLoss` and
`CheckSymbolExposure`. -/
def accountBalance : ℚ := 10000

/-- Milliseconds per calendar day, for `floor<days>`. -/
def msPerDay : ℕ := 86400000

/-- `CRiskManager::CheckMaxOpenPositions`. -/
def checkMaxOpenPositions (s : RiskState) : Bool :=
  s.openPositions.length < s.maxOpenPositions

/-- `CRiskManager::CheckMaxDailyLoss`: day-rollover reset of `mTodayPnL` and
`mStartOfDay` (performed through `const_cast`, hence the returned state),
then `-mTodayPnL < accountBalance * maxDailyLoss / 100`. -/
def checkMaxDailyLoss (s : RiskState) (now : ℕ) : Bool × RiskState :=
  let today := now / msPerDay
  let s' :=
    if today > s.startOfDay / msPerDay then
      { s with startOfDay := today * msPerDay, todayPnL := 0 }
    else s
  (decide (-s'.todayPnL < accountBalance * (s'.maxDailyLoss / 100)), s')

/-- `CRiskManager::CheckSymbolExposure`: current symbol exposure (0 when the
symbol is unknown) plus the added exposure must not exceed
`accountBalance * maxSymbolExposure / 100`. -/
def checkSymbolExposure (s : RiskState) (symbol : String)
    (addedExposure : ℚ) : Bool :=
  let currentExposure := (alookup s.symbolExposure symbol).getD 0
  let maxAllowedExposure := accountBalance * (s.maxSymbolExposure / 100)
  decide (currentExposure + addedExposure ≤ maxAllowedExposure)

/-- `CRiskManager::CheckTradeFrequency`: refuse when the symbol traded less
than `minTimeBetweenTrades` seconds ago. -/
def checkTradeFrequency (s : RiskState) (symbol : String) (now : ℕ) : Bool :=
  match alookup s.lastTradeTime symbol with
  | none => true
  | some t => if now - t < s.minTimeBetweenTrades * 1000 then false else true

/-- `CRiskManager::CheckMarketVolatility`: the source returns `true`
unconditionally. -/
def checkMarketVolatility (_s : RiskState) (_symbol : String)
    (_price : ℚ) : Bool :=
  true

/-- `CRiskManager::CheckPositionAllowed`: basic-parameter, max-positions,
daily-loss, symbol-exposure, trade-frequency and (when enabled) volatility
gates, in source order with short-circuiting.  No branch touches
`mActiveAlerts`. -/
def checkPositionAllowed (s : RiskState) (now : ℕ) (symbol : String)
    (_side : EOrderSide) (quantity price : ℚ) : Bool × RiskState :=
  if symbol = "" ∨ quantity ≤ 0 ∨ price ≤ 0 then (false, s)
  else if ¬ checkMaxOpenPositions s then (false, s)
  else
    let dailyResult := checkMaxDailyLoss s now
    if ¬ dailyResult.1 then (false, dailyResult.2)
    else
      let exposure := quantity * price
      if ¬ checkSymbolExposure dailyResult.2 symbol exposure then
        (false, dailyResult.2)
      else if ¬ checkTradeFrequency dailyResult.2 symbol now then
        (false, dailyResult.2)
      else if dailyResult.2.enableVolatilityCheck ∧
          ¬ checkMarketVolatility dailyResult.2 symbol price then
        (false, dailyResult.2)
      else (true, dailyResult.2)

/-- `CRiskManager::RegisterPosition`: throws on an empty position id;
otherwise stores the position, adds `quantity * entryPrice` to the symbol's
exposure and to the total exposure, and stamps the symbol's last-trade
time. -/
def registerPosition (s : RiskState) (position : SPosition) (now : ℕ) :
    Option Unit × RiskState :=
  if position.id = "" then (some (), s)
  else
    let exposure := position.quantity * position.entryPrice
    (none,
      { s with
        openPositions := aset s.openPositions position.id position,
        symbolExposure := aadd s.symbolExposure position.symbol exposure,
        totalExposure := s.totalExposure + exposure,
        lastTradeTime := aset s.lastTradeTime position.symbol now })

/-- `CRiskManager::ClosePosition`: throws (before any mutation) when the id
is not an open position; otherwise removes `quantity * entryPrice` from the
symbol's and the total exposure, accumulates the realized pnl into
`mTodayPnL`, and erases the position. -/
def closePosition (s : RiskState) (positionId : String)
    (_exitPrice pnl : ℚ) : Option Unit × RiskState :=
  match alookup s.openPositions positionId with
  | none => (some (), s)
  | some position =>
    let exposure := position.quantity * position.entryPrice
    (none,
      { s with
        symbolExposure := aadd s.symbolExposure position.symbol (-exposure),
        totalExposure := s.totalExposure - exposure,
        todayPnL := s.todayPnL + pnl,
        openPositions := aerase s.openPositions positionId })

/-- Sum of the per-symbol exposures of the Risk Manager. -/
def sumExposures (m : List (String × ℚ)) : ℚ :=
  (m.map Prod.snd).sum

/-- A Risk Manager mutation: `RegisterPosition` or `ClosePosition`. -/
inductive RiskOp where
  | register (position : SPosition) (now : ℕ)
  | close (positionId : String) (exitPrice pnl : ℚ)

/-- Apply one mutation (a thrown call leaves the state unchanged). -/
def applyRiskOp (s : RiskState) : RiskOp → RiskState
  | .register position now => (registerPosition s position now).2
  | .close positionId exitPrice pnl => (closePosition s positionId exitPrice pnl).2

/-- Apply a sequence of mutations. -/
def applyRiskOps (s : RiskState) (ops : List RiskOp) : RiskState :=
  ops.foldl applyRiskOp s

theorem sumExposures_aadd (m : List (String × ℚ)) (key : String) (d : ℚ) :
    sumExposures (aadd m key d) = sumExposures m + d := by
  induction m with
  | nil => simp [aadd, sumExposures]
  | cons p t ih =>
    obtain ⟨k, v⟩ := p
    by_cases hk : k = key
    · simp [aadd, hk, sumExposures]
      ring
    · simp only [aadd, hk, if_false, sumExposures, List.map_cons, List.sum_cons]
      simp only [sumExposures] at ih
      rw [ih]
      ring

theorem applyRiskOp_exposure_inv (s : RiskState) (op : RiskOp)
    (h : sumExposures s.symbolExposure = s.totalExposure) :
    sumExposures (applyRiskOp s op).symbolExposure
      = (applyRiskOp s op).totalExposure := by
  cases op with
  | register position now =>
    unfold applyRiskOp registerPosition
    by_cases hid : position.id = ""
    · simp [hid, h]
    · simp only [hid, if_false]
      rw [sumExposures_aadd, h]
  | close positionId exitPrice pnl =>
    cases hfind : alookup s.openPositions positionId with
    | none =>
      simp only [applyRiskOp, closePosition, hfind]
      exact h
    | some position =>
      simp only [applyRiskOp, closePosition, hfind]
      rw [sumExposures_aadd, h]
      ring

/-- **C2**: starting from the freshly constructed Risk Manager, after any
sequence of `RegisterPosition` and `ClosePosition` calls (throwing calls
leave the state untouched), the sum over all symbols of the per-symbol
exposure equals the total exposure; each registered position contributes
`quantity * entryPrice` to its symbol and a successful close removes
exactly that contribution. -/
theorem riskManager_exposure_sum_invariant (now0 : ℕ) (ops : List RiskOp) :
    sumExposures (applyRiskOps (initRiskManager now0) ops).symbolExposure
      = (applyRiskOps (initRiskManager now0) ops).totalExposure := by
  suffices h : ∀ (s : RiskState),
      sumExposures s.symbolExposure = s.totalExposure →
      sumExposures (applyRiskOps s ops).symbolExposure
        = (applyRiskOps s ops).totalExposure from
    h (initRiskManager now0) (by simp [initRiskManager, sumExposures])
  induction ops with
  | nil => intro s hs; exact hs
  | cons op rest ih =>
    intro s hs
    exact ih (applyRiskOp s op) (applyRiskOp_exposure_inv s op hs)

/-- **C10**: closing a position id that is not in the open-positions map
throws and leaves the whole Risk Manager state unchanged. -/
theorem closePosition_missing_id_throws_state_unchanged (s : RiskState)
    (positionId : String) (exitPrice pnl : ℚ)
    (h : alookup s.openPositions positionId = none) :
    (closePosition s positionId exitPrice pnl).1 = some () ∧
    (closePosition s positionId exitPrice pnl).2 = s := by
  unfold closePosition
  rw [h]
  exact ⟨rfl, rfl⟩

/-- Witness for `closePosition_missing_id_throws_state_unchanged` on the
fresh Risk Manager and the unknown id `"nope"`. -/
theorem closePosition_missing_id_witness :
    alookup (initRiskManager 0).openPositions "nope" = none ∧
    ((closePosition (initRiskManager 0) "nope" 1 2).1 = some () ∧
      (closePosition (initRiskManager 0) "nope" 1 2).2 = initRiskManager 0) :=
  ⟨rfl, closePosition_missing_id_throws_state_unchanged
    (initRiskManager 0) "nope" 1 2 rfl⟩

/-- The position giving BTCUSDT an existing exposure of `0.25 × 6000 =
1500` for the C1 scenario. -/
def c1Position : SPosition :=
  { symbol := "BTCUSDT", side := .BUY, entryPrice := 6000, quantity := 1/4,
    id := "pos1" }

/-- Risk Manager state of the C1 scenario: fresh manager (balance 10000,
max symbol exposure 20 % ⇒ cap 2000) with `c1Position` registered. -/
def c1State : RiskState :=
  (registerPosition (initRiskManager 0) c1Position 0).2

/-- The C1 gate call: BUY 0.1 BTCUSDT at price 6000 (added exposure 600),
sixteen minutes into the same day. -/
def c1Result : Bool × RiskState :=
  checkPositionAllowed c1State 1000000 "BTCUSDT" .BUY (1/10) 6000

theorem c1State_eval : c1State =
    { openPositions := [("pos1", c1Position)],
      symbolExposure := [("BTCUSDT", 1500)],
      lastTradeTime := [("BTCUSDT", 0)],
      totalExposure := 1500 } := by
  simp only [c1State, c1Position, initRiskManager, registerPosition, aadd, aset]
  rw [if_neg (show ¬(("pos1" : String) = "") from by decide)]
  norm_num

theorem c1Result_eval : c1Result = (false, c1State) := by
  unfold c1Result
  rw [c1State_eval]
  simp only [checkPositionAllowed, checkMaxOpenPositions, checkMaxDailyLoss,
    checkSymbolExposure, accountBalance, msPerDay, alookup]
  rw [if_neg (show ¬(("BTCUSDT" : String) = "" ∨ (1:ℚ)/10 ≤ 0 ∨ (6000:ℚ) ≤ 0)
    from by push_neg; refine ⟨by decide, by norm_num, by norm_num⟩)]
  norm_num

/-- **C1** (counterexample): in the claimed scenario (existing BTCUSDT
exposure 1500, cap 2000, requested exposure 600, so 2100 > 2000)
`CheckPositionAllowed` does return `false`, but no SYMBOL_EXPOSURE_LIMIT
alert with current value 2100 and limit 2000 — indeed no alert at all — is
recorded: the alert machinery declared in `RiskManager.h` is never invoked
by any code path, so the active-alerts list stays empty. -/
theorem checkPositionAllowed_no_alert_recorded :
    (alookup c1State.symbolExposure "BTCUSDT").getD 0 = 1500 ∧
    c1Result.1 = false ∧
    ¬ (∃ a ∈ c1Result.2.activeAlerts,
        a.type = ERiskAlertType.SYMBOL_EXPOSURE_LIMIT ∧
        a.currentValue = 2100 ∧ a.limitValue = 2000) := by
  refine ⟨?_, ?_, ?_⟩
  · rw [c1State_eval]
    norm_num [alookup]
  · rw [c1Result_eval]
  · rw [c1Result_eval, c1State_eval]
    simp

/-- **C1** (amended): in the claimed scenario `CheckPositionAllowed`
returns `false` (1500 + 600 > 2000), and the active-alerts list is left
exactly as it was — empty; no alert of any kind is recorded. -/
theorem checkPositionAllowed_rejects_symbol_exposure :
    c1Result.1 = false ∧
    checkSymbolExposure c1State "BTCUSDT" ((1/10) * 6000) = false ∧
    c1Result.2.activeAlerts = c1State.activeAlerts ∧
    c1State.activeAlerts = [] := by
  refine ⟨?_, ?_, ?_, ?_⟩
  · rw [c1Result_eval]
  · rw [c1State_eval]
    norm_num [checkSymbolExposure, accountBalance, alookup]
  · rw [c1Result_eval]
  · rw [c1State_eval]

/-! ## Backtester data loading (`CBackTester`) -/

/-- `API::SKline` (numeric fields; the open price is named `openPrice`
because `open` is a Lean keyword). -/
structure SKline where
  openTime : ℚ := 0
  openPrice : ℚ := 0
  high : ℚ := 0
  low : ℚ := 0
  close : ℚ := 0
  volume : ℚ := 0
  closeTime : ℚ := 0
deriving DecidableEq, Repr

/-- The kline built by the CSV field loop of
`CBackTester::LoadHistoricalData`: fields 0–6 are open-time, O, H, L, C, V,
close-time; any further fields are ignored. -/
def klineOfRow (row : List ℚ) : SKline :=
  { openTime := row.getD 0 0, openPrice := row.getD 1 0, high := row.getD 2 0,
    low := row.getD 3 0, close := row.getD 4 0, volume := row.getD 5 0,
    closeTime := row.getD 6 0 }

/-- `CBackTester::LoadHistoricalData` over the already-lexed data rows of
the CSV (the header line is skipped before this loop): every row with at
least 7 comma-separated fields is appended, in file order; the function
performs no sort. -/
def loadHistoricalData (rows : List (List ℚ)) : List SKline :=
  rows.filterMap fun row =>
    if 7 ≤ row.length then some (klineOfRow row) else none

/-- The `std::sort` call of `LoadHistoricalDataFromAPI` with comparator
`a.mOpenTime < b.mOpenTime`: sort into non-decreasing open-time order. -/
def sortKlinesByOpenTime (l : List SKline) : List SKline :=
  l.mergeSort fun a b => decide (a.openTime ≤ b.openTime)

/-- `CBackTester::LoadHistoricalDataFromAPI`: the pagination loop is an
external-adapter interaction, abstracted as the list `fetched` of all
klines it returned; each kline inside `[startTime, endTime]` is kept, and
the result is sorted by open-time. -/
def loadHistoricalDataFromAPI (startTime endTime : ℚ)
    (fetched : List SKline) : List SKline :=
  sortKlinesByOpenTime
    (fetched.filter fun k =>
      decide (startTime ≤ k.openTime) && decide (k.openTime ≤ endTime))

/-- The stored candle sequence is in non-decreasing open-time order. -/
def sortedByOpenTime (l : List SKline) : Prop :=
  List.Chain' (fun a b => a.openTime ≤ b.openTime) l

/-- **C8** (counterexample): a CSV whose data rows carry open-times 2 then 1
is stored by `LoadHistoricalData` in file order — open-times `[2, 1]` — so
the stored candle sequence after a CSV load is *not* sorted by open-time:
only the API loader sorts. -/
theorem loadHistoricalData_csv_not_sorted :
    (loadHistoricalData [[2, 0, 0, 0, 0, 0, 0], [1, 0, 0, 0, 0, 0, 0]]).map
        SKline.openTime = [2, 1] ∧
    ¬ sortedByOpenTime
        (loadHistoricalData [[2, 0, 0, 0, 0, 0, 0], [1, 0, 0, 0, 0, 0, 0]]) := by
  constructor
  · rfl
  · intro h
    simp only [loadHistoricalData, klineOfRow, List.filterMap_cons,
      List.filterMap_nil, List.length_cons, List.length_nil] at h
    norm_num [sortedByOpenTime, List.chain'_cons, List.getD] at h

theorem sortKlinesByOpenTime_sorted (l : List SKline) :
    sortedByOpenTime (sortKlinesByOpenTime l) := by
  unfold sortedByOpenTime sortKlinesByOpenTime
  have hp : List.Pairwise
      (fun a b : SKline => (decide (a.openTime ≤ b.openTime)) = true)
      (l.mergeSort fun a b => decide (a.openTime ≤ b.openTime)) := by
    refine List.sorted_mergeSort ?_ ?_ l
    · intro a b c hab hbc
      simp only [decide_eq_true_eq] at hab hbc ⊢
      exact le_trans hab hbc
    · intro a b
      rcases le_total a.openTime b.openTime with h | h <;> simp [h]
  exact List.Pairwise.chain'
    (hp.imp fun hab => by simpa [decide_eq_true_eq] using hab)

/-- **C8** (amended): after `LoadHistoricalDataFromAPI` the stored candle
sequence is sorted in non-decreasing open-time order, for every fetched
batch and time range; the CSV path `LoadHistoricalData` stores rows in
file order and does not sort. -/
theorem loadHistoricalDataFromAPI_sorted (startTime endTime : ℚ)
    (fetched : List SKline) :
    sortedByOpenTime (loadHistoricalDataFromAPI startTime endTime fetched) :=
  sortKlinesByOpenTime_sorted _

/-! ## Strategy Engine dispatch (`CStrategyEngine::ExecuteStrategy`)

The looked-up strategy object's behaviour is passed in explicitly: `upd`
is the outcome of its `Update` call (`Except.error` embeds a thrown C++
exception) and `validateSignal` its `ValidateSignal` method. -/

/-- `Strategy::ESignalType`. -/
inductive ESignalType where
  | BUY
  | SELL
  | HOLD
  | CLOSE_LONG
  | CLOSE_SHORT
  | CANCEL
deriving DecidableEq, Repr

/-- `Strategy::EStrategyState`. -/
inductive EStrategyState where
  | INACTIVE
  | ACTIVE
  | PAUSED
  | ERROR
  | INITIALIZING
deriving DecidableEq, Repr

/-- `Strategy::SSignal` (the `mParameters` map is omitted; `ExecuteStrategy`
never reads it). -/
structure SSignal where
  type : ESignalType := .HOLD
  symbol : String := ""
  price : ℚ := 0
  quantity : ℚ := 0
  stopLoss : ℚ := 0
  takeProfit : ℚ := 0
  confidence : ℚ := 0
  message : String := ""
  timestamp : ℕ := 0
  strategyName : String := ""
deriving DecidableEq, Repr

/-- The engine state read and written by `ExecuteStrategy`: the set of
registered strategy names (`mStrategies` keys) and the per-strategy state
map (`mStrategyStates`). -/
structure EngineState where
  strategies : List String
  strategyStates : List (String × EStrategyState)
deriving DecidableEq, Repr

/-- `CStrategyEngine::ValidateStrategy`: the name is registered, has a
recorded state, and that state is ACTIVE. -/
def validateStrategy (eng : EngineState) (name : String) : Bool :=
  if name ∈ eng.strategies then
    match alookup eng.strategyStates name with
    | some st => decide (st = EStrategyState.ACTIVE)
    | none => false
  else false

/-- The HOLD signal synthesized when the strategy is not ACTIVE. -/
def notActiveSignal (name : String) (now : ℕ) : SSignal :=
  { type := .HOLD, strategyName := name,
    message := "Strategy is not active", timestamp := now }

/-- The HOLD signal synthesized when `Update` throws with message `e`. -/
def errorSignal (name e : String) (now : ℕ) : SSignal :=
  { type := .HOLD, strategyName := name,
    message := "Execution error: " ++ e, timestamp := now }

/-- `CStrategyEngine::ExecuteStrategy`: throws on an unknown name; returns
the not-active HOLD without consulting `Update` when the recorded state
(INACTIVE when absent) is not ACTIVE; otherwise runs `Update`, degrades a
signal failing `ValidateStrategy`/`ValidateSignal` to HOLD, stamps
strategy name and timestamp; a thrown `Update` flips the state to ERROR
and yields the synthesized error HOLD instead of propagating. -/
def executeStrategy (eng : EngineState) (name : String)
    (upd : Except String SSignal) (validateSignal : SSignal → Bool)
    (now : ℕ) : Except String (SSignal × EngineState) :=
  if name ∈ eng.strategies then
    let state := (alookup eng.strategyStates name).getD .INACTIVE
    if state ≠ .ACTIVE then .ok (notActiveSignal name now, eng)
    else
      match upd with
      | .ok signal =>
        let validated :=
          if ¬(validateStrategy eng name && validateSignal signal) then
            { signal with type := .HOLD, message := "Signal validation failed" }
          else signal
        .ok ({ validated with strategyName := name, timestamp := now }, eng)
      | .error e =>
        .ok (errorSignal name e now,
          { eng with strategyStates := aset eng.strategyStates name .ERROR })
  else .error ("Strategy with name " ++ name ++ " not found")

theorem alookup_aset [DecidableEq κ] (m : List (κ × β)) (key : κ) (v : β) :
    alookup (aset m key v) key = some v := by
  induction m with
  | nil => simp [aset, alookup]
  | cons p t ih =>
    obtain ⟨k, w⟩ := p
    by_cases hk : k = key
    · simp [aset, alookup, hk]
    · simp [aset, alookup, hk, ih]

/-- **C9**: for a registered strategy, (a) when its recorded state is not
ACTIVE, `ExecuteStrategy` returns the explanatory HOLD signal and the
result does not depend on the `Update` outcome (`Update` is not consulted);
(b) when it is ACTIVE and the produced signal fails `ValidateSignal`, the
signal is degraded to HOLD with the validation message; and (c) when
`Update` throws, the call still returns `.ok` — no exception propagates —
carrying a HOLD signal with the error message, and the strategy's recorded
state becomes ERROR. -/
theorem executeStrategy_error_handling (eng : EngineState) (name : String)
    (validateSignal : SSignal → Bool) (now : ℕ)
    (hreg : name ∈ eng.strategies) :
    ((alookup eng.strategyStates name).getD .INACTIVE ≠ .ACTIVE →
      ∀ upd, executeStrategy eng name upd validateSignal now
        = .ok (notActiveSignal name now, eng)) ∧
    ((alookup eng.strategyStates name).getD .INACTIVE = .ACTIVE →
      ∀ sig, validateSignal sig = false →
        executeStrategy eng name (.ok sig) validateSignal now
          = .ok ({ sig with
                     type := .HOLD,
                     message := "Signal validation failed",
                     strategyName := name, timestamp := now }, eng)) ∧
    ((alookup eng.strategyStates name).getD .INACTIVE = .ACTIVE →
      ∀ e, executeStrategy eng name (.error e) validateSignal now
          = .ok (errorSignal name e now,
              { eng with strategyStates := aset eng.strategyStates name .ERROR }) ∧
        (errorSignal name e now).type = .HOLD ∧
        (errorSignal name e now).message = "Execution error: " ++ e ∧
        alookup (aset eng.strategyStates name .ERROR) name
          = some .ERROR) := by
  refine ⟨?_, ?_, ?_⟩
  · intro hstate upd
    unfold executeStrategy
    simp [hreg, hstate]
  · intro hstate sig hsig
    unfold executeStrategy
    simp [hreg, hstate, hsig]
  · intro hstate e
    unfold executeStrategy
    simp [hreg, hstate, alookup_aset]
    exact ⟨rfl, rfl⟩

/-- Witness for `executeStrategy_error_handling` on a one-strategy engine
with `"s"` registered and ACTIVE. -/
theorem executeStrategy_error_handling_witness :
    "s" ∈ (EngineState.mk ["s"] [("s", .ACTIVE)]).strategies ∧
    (((alookup (EngineState.mk ["s"] [("s", .ACTIVE)]).strategyStates "s").getD
        .INACTIVE ≠ .ACTIVE →
      ∀ upd, executeStrategy (EngineState.mk ["s"] [("s", .ACTIVE)]) "s" upd
          (fun _ => false) 0
        = .ok (notActiveSignal "s" 0, EngineState.mk ["s"] [("s", .ACTIVE)])) ∧
    ((alookup (EngineState.mk ["s"] [("s", .ACTIVE)]).strategyStates "s").getD
        .INACTIVE = .ACTIVE →
      ∀ sig, (fun (_ : SSignal) => false) sig = false →
        executeStrategy (EngineState.mk ["s"] [("s", .ACTIVE)]) "s" (.ok sig)
            (fun _ => false) 0
          = .ok ({ sig with
                     type := .HOLD,
                     message := "Signal validation failed",
                     strategyName := "s", timestamp := 0 },
              EngineState.mk ["s"] [("s", .ACTIVE)])) ∧
    ((alookup (EngineState.mk ["s"] [("s", .ACTIVE)]).strategyStates "s").getD
        .INACTIVE = .ACTIVE →
      ∀ e, executeStrategy (EngineState.mk ["s"] [("s", .ACTIVE)]) "s"
            (.error e) (fun _ => false) 0
          = .ok (errorSignal "s" e 0,
              { EngineState.mk ["s"] [("s", .ACTIVE)] with
                strategyStates :=
                  aset (EngineState.mk ["s"] [("s", .ACTIVE)]).strategyStates
                    "s" .ERROR }) ∧
        (errorSignal "s" e 0).type = .HOLD ∧
        (errorSignal "s" e 0).message = "Execution error: " ++ e ∧
        alookup (aset (EngineState.mk ["s"] [("s", .ACTIVE)]).strategyStates
            "s" .ERROR) "s" = some .ERROR)) :=
  ⟨by decide,
    executeStrategy_error_handling (EngineState.mk ["s"] [("s", .ACTIVE)]) "s"
      (fun _ => false) 0 (by decide)⟩

end Trader
